import Mathlib

/-!
Verification of the Coding-CLI-Agent repository (src/main.py, src/tools.py).

The development shallowly embeds the program: the file-system state is an
explicit tree of named nodes, each tool from src/tools.py becomes a pure
function from the state (plus its string arguments) to the state and the
returned message string, and the agent loop from src/main.py becomes a
recursion over a scripted list of model replies.  Python string operations
(split, lower, strip, substring test) are re-implemented over the underlying
character lists so that every definition evaluates by kernel reduction.
-/

namespace CodingAgent

/-! ### String helpers mirroring the Python string operations -/

/-- Is the first list a prefix of the second (character comparison). -/
def isPrefixList : List Char → List Char → Bool
  | [], _ => true
  | _ :: _, [] => false
  | a :: s, b :: t => a == b && isPrefixList s t

/-- Python substring test: does `sub` occur inside `s`?  The empty list
occurs in every list, as in Python. -/
def containsList : List Char → List Char → Bool
  | [], sub => sub.isEmpty
  | a :: t, sub => isPrefixList sub (a :: t) || containsList t sub

/-- Python `needle in haystack` on strings. -/
def strContains (haystack needle : String) : Bool :=
  containsList haystack.data needle.data

/-- Python `str.lower` (ASCII, which covers every string the program builds). -/
def pyLower (s : String) : String :=
  ⟨s.data.map Char.toLower⟩

/-- Python `str.startswith`. -/
def strStartsWith (s pre : String) : Bool :=
  isPrefixList pre.data s.data

/-- Python `str.endswith`. -/
def strEndsWith (s suf : String) : Bool :=
  isPrefixList suf.data.reverse s.data.reverse

/-- Index of the first occurrence of `sub` in `s`, if any. -/
def findSub : List Char → List Char → Option Nat
  | [], sub => if sub.isEmpty then some 0 else none
  | c :: t, sub =>
    if isPrefixList sub (c :: t) then some 0 else (findSub t sub).map (· + 1)

/-- One splitting pass with explicit fuel; the fuel is only a structural
termination device, `s.length + 1` splits always suffice for a non-empty
separator. -/
def splitFuel (sep : List Char) : Nat → List Char → List (List Char)
  | 0, s => [s]
  | n + 1, s =>
    match findSub s sep with
    | none => [s]
    | some i => s.take i :: splitFuel sep n (s.drop (i + sep.length))

/-- Python `s.split(sep)` for a non-empty separator (a Python split with an
empty separator raises, and the program never performs one; we return the
whole string for totality). -/
def splitChars (sep s : List Char) : List (List Char) :=
  if sep.isEmpty then [s] else splitFuel sep (s.length + 1) s

/-- Python `s.split(sep, 1)`: split at the first occurrence only. -/
def split1Chars (sep s : List Char) : List (List Char) :=
  if sep.isEmpty then [s]
  else
    match findSub s sep with
    | none => [s]
    | some i => [s.take i, s.drop (i + sep.length)]

/-- Python `s.split(sep)` on `String`. -/
def pySplit (s sep : String) : List String :=
  (splitChars sep.data s.data).map (fun l => (⟨l⟩ : String))

/-- Python `s.split(sep, 1)` on `String`. -/
def pySplit1 (s sep : String) : List String :=
  (split1Chars sep.data s.data).map (fun l => (⟨l⟩ : String))

/-- The whitespace characters stripped by Python `str.strip()`. -/
def isPySpace (c : Char) : Bool :=
  c == ' ' || c == '\t' || c == '\n' || c == '\r' || c == '\x0b' || c == '\x0c'

/-- Python `str.strip()`. -/
def pyStrip (s : String) : String :=
  ⟨((s.data.dropWhile isPySpace).reverse.dropWhile isPySpace).reverse⟩

/-- The lines yielded by iterating over an open Python text file, with the
trailing newline of each line removed (the program only ever strips a line
or performs a substring test on it, so dropping the terminator is faithful
for every pattern that does not itself contain a newline). -/
def fileLines (content : String) : List String :=
  match content.data with
  | [] => []
  | c :: t =>
    let ls := splitChars ['\n'] (c :: t)
    (if ls.getLast? = some [] then ls.dropLast else ls).map (fun l => (⟨l⟩ : String))

/-- Code-point lexicographic comparison, as Python compares strings. -/
def leChars : List Char → List Char → Bool
  | [], _ => true
  | _ :: _, [] => false
  | a :: s, b :: t =>
    if a.toNat < b.toNat then true
    else if b.toNat < a.toNat then false
    else leChars s t

/-- Python `"\n".join`. -/
def joinLines : List String → String
  | [] => ""
  | [a] => a
  | a :: b :: rest => a ++ "\n" ++ joinLines (b :: rest)

/-- Concatenation of a list of lists. -/
def catLists : List (List α) → List α
  | [] => []
  | a :: t => a ++ catLists t

/-- Number a list from `n` upward, as Python `enumerate(f, n)`. -/
def numberFrom : Nat → List α → List (Nat × α)
  | _, [] => []
  | n, a :: t => (n, a) :: numberFrom (n + 1) t

/-! ### The file-system model

A path is its list of components.  `pathlib.Path` normalisation drops empty
components and `.` components; `..` is not resolved (and never produced by
the program). -/

abbrev Path := List String

/-- A file-system node: a regular file with text content, or a directory
with a list of named children (in creation order). -/
inductive Node where
  | file (content : String)
  | dir (children : List (String × Node))

/-- The file-system state: the children of the root directory (the process
working directory, which always exists). -/
abbrev FS := List (String × Node)

/-- Parse a path string the way `pathlib.Path` decomposes it into parts. -/
def parsePath (s : String) : Path :=
  ((splitChars ['/'] s.data).filter (fun l => !l.isEmpty && !(l == ['.']))).map
    (fun l => (⟨l⟩ : String))

/-- Render a path as `str(Path(...))` renders it. -/
def renderPath : Path → String
  | [] => "."
  | [n] => n
  | n :: m :: rest => n ++ "/" ++ renderPath (m :: rest)

/-- Look up a name among a directory list of children. -/
def findEntry : List (String × Node) → String → Option Node
  | [], _ => none
  | (m, nd) :: rest, n => if m = n then some nd else findEntry rest n

/-- Replace the named child, or append it if absent. -/
def setEntry : List (String × Node) → String → Node → List (String × Node)
  | [], n, nd => [(n, nd)]
  | (m, x) :: rest, n, nd =>
    if m = n then (n, nd) :: rest else (m, x) :: setEntry rest n nd

/-- Resolve a path against a directory listing: the node it denotes, if it
exists.  A path through a regular file does not exist, as for `Path.exists`. -/
def lookupPath (es : List (String × Node)) : Path → Option Node
  | [] => some (.dir es)
  | [n] => findEntry es n
  | n :: m :: rest =>
    match findEntry es n with
    | some (.dir cs) => lookupPath cs (m :: rest)
    | _ => none

/-- Create a file at the path, creating missing parent directories first,
as `write_file` does (`path.parent.mkdir(parents=True, exist_ok=True)` then
`open(path, "w")`).  `none` models the raised `OSError`: writing to the root,
writing over an existing directory, or a non-directory ancestor.  (A failing
Python `mkdir(parents=True)` can leave earlier ancestors created; no property
below observes the state after a failed write, so the state is returned
unchanged on failure.) -/
def writeAt : List (String × Node) → Path → String → Option (List (String × Node))
  | _, [], _ => none
  | es, [n], c =>
    match findEntry es n with
    | some (.dir _) => none
    | _ => some (setEntry es n (.file c))
  | es, n :: m :: rest, c =>
    match findEntry es n with
    | some (.file _) => none
    | some (.dir cs) => (writeAt cs (m :: rest) c).map (fun cs2 => setEntry es n (.dir cs2))
    | none => (writeAt [] (m :: rest) c).map (fun cs2 => setEntry es n (.dir cs2))

/-- Create a directory and all missing ancestors, as
`path.mkdir(parents=True, exist_ok=True)`; `none` models the raised error
when a regular file occupies the path or an ancestor. -/
def mkdirAt : List (String × Node) → Path → Option (List (String × Node))
  | es, [] => some es
  | es, [n] =>
    match findEntry es n with
    | some (.file _) => none
    | some (.dir _) => some es
    | none => some (setEntry es n (.dir []))
  | es, n :: m :: rest =>
    match findEntry es n with
    | some (.file _) => none
    | some (.dir cs) => (mkdirAt cs (m :: rest)).map (fun cs2 => setEntry es n (.dir cs2))
    | none => (mkdirAt [] (m :: rest)).map (fun cs2 => setEntry es n (.dir cs2))

/-! ### The Tool Library (src/tools.py) -/

/-- Model of `tools.read_file` (src/tools.py:7-29). -/
def read_file (fs : FS) (p : Path) : String :=
  match lookupPath fs p with
  | none => "Error: File \x27" ++ renderPath p ++ "\x27 does not exist"
  | some (.dir _) => "Error: \x27" ++ renderPath p ++ "\x27 is not a file"
  | some (.file c) => if c = "" then "(Empty file)" else c

/-- Model of `tools.write_file` (src/tools.py:32-53): the new state and the returned
message.  The character count in the success message is `len(content)`. -/
def write_file (fs : FS) (p : Path) (c : String) : FS × String :=
  match writeAt fs p c with
  | some fs2 =>
    (fs2, "Successfully wrote " ++ Nat.repr c.length ++ " characters to \x27" ++
      renderPath p ++ "\x27")
  | none => (fs, "Error writing file: invalid path")

/-- Model of `tools.create_directory` (src/tools.py:56-79). -/
def create_directory (fs : FS) (p : Path) : FS × String :=
  match lookupPath fs p with
  | some (.dir _) => (fs, "Directory \x27" ++ renderPath p ++ "\x27 already exists")
  | some (.file _) =>
    (fs, "Error: \x27" ++ renderPath p ++ "\x27 exists but is not a directory")
  | none =>
    match mkdirAt fs p with
    | some fs2 => (fs2, "Successfully created directory \x27" ++ renderPath p ++ "\x27")
    | none => (fs, "Error creating directory: ancestor is not a directory")

/-- Lexicographic order on directory entries by name; `sorted(path.iterdir())`
compares the path strings, which for siblings is their name comparison. -/
def entryLe (a b : String × Node) : Prop :=
  leChars a.1.data b.1.data = true

instance : DecidableRel entryLe := fun _ _ =>
  inferInstanceAs (Decidable (_ = true))

/-- The line `list_files` prints for one child. -/
def fmtEntry : String × Node → String
  | (n, .dir _) => "[DIR]  " ++ n ++ "/"
  | (n, .file c) => "[FILE] " ++ n ++ " (" ++ Nat.repr c.utf8ByteSize ++ " bytes)"

/-- Model of `tools.list_files` (src/tools.py:82-113).  `item.stat().st_size` is the
byte size of the stored (UTF-8 encoded) content. -/
def list_files (fs : FS) (p : Path) : String :=
  match lookupPath fs p with
  | none => "Error: Directory \x27" ++ renderPath p ++ "\x27 does not exist"
  | some (.file _) => "Error: \x27" ++ renderPath p ++ "\x27 is not a directory"
  | some (.dir cs) =>
    let items := (List.insertionSort entryLe cs).map fmtEntry
    if items.isEmpty then "Directory \x27" ++ renderPath p ++ "\x27 is empty"
    else joinLines items

/-- Outcome of handing a command line to `subprocess.run(..., timeout=30)`:
what the external shell does is outside the program, so it enters the model
as an oracle. -/
inductive ExecOutcome where
  | finished (stdout stderr : String) (code : Int)
  | timedOut
  | raised (msg : String)

abbrev ExecOracle := String → ExecOutcome

/-- The denylist of src/tools.py:127 (the literal strings, including the
fork bomb). -/
def dangerousKeywords : List String :=
  ["rm -rf /", "dd", "mkfs", "format", ":()\x7b:|:&\x7d;:"]

/-- Model of `tools.execute_command` (src/tools.py:116-151).  The denylist test is a
substring test against `command.lower()` and happens before any execution. -/
def execute_command (oracle : ExecOracle) (command : String) : String :=
  if dangerousKeywords.any (fun k => strContains (pyLower command) k) then
    "Error: Command blocked for safety reasons"
  else
    match oracle command with
    | .timedOut => "Error: Command timed out after 30 seconds"
    | .raised m => "Error executing command: " ++ m
    | .finished out err code =>
      let parts :=
        (if out = "" then [] else ["STDOUT:\n" ++ out]) ++
        (if err = "" then [] else ["STDERR:\n" ++ err]) ++
        (if code = 0 then [] else ["Exit code: " ++ Int.repr code])
      if parts.isEmpty then "(No output)" else joinLines parts

/-- A regular file met during the recursive walk: its path relative to the
search root, its own name, and its content. -/
structure FileHit where
  rel : Path
  name : String
  content : String

mutual

/-- The regular files below one named node, in walk order. -/
def filesOfNode (p : Path) (n : String) : Node → List FileHit
  | .file c => [⟨p ++ [n], n, c⟩]
  | .dir cs => filesOfList (p ++ [n]) cs

/-- All regular files below a directory listing, in walk order: `rglob`
yields every entry recursively (pathlib does not hide dot-entries; the
scan order within a directory is OS-chosen, modelled as list order). -/
def filesOfList (p : Path) : List (String × Node) → List FileHit
  | [] => []
  | (n, nd) :: rest => filesOfNode p n nd ++ filesOfList p rest

end

/-- The files `search_code` actually opens and counts: the walk minus
entries whose own name starts with `"."` and minus names failing the
extension filter (src/tools.py:175-182). -/
def searchScanned (fs : FS) (dirPath : Path) (ext : String) : List FileHit :=
  match lookupPath fs dirPath with
  | some (.dir cs) =>
    (filesOfList [] cs).filter
      (fun f => !strStartsWith f.name "." && (ext.data.isEmpty || strEndsWith f.name ext))
  | _ => []

/-- The formatted match lines one scanned file contributes
(src/tools.py:185-190): case-insensitive substring test per line, output
`rel:lineno: stripped-line`. -/
def fileMatchLines (pattern : String) (f : FileHit) : List String :=
  (numberFrom 1 (fileLines f.content)).filterMap
    (fun il =>
      if strContains (pyLower il.2) (pyLower pattern) then
        some (renderPath f.rel ++ ":" ++ Nat.repr il.1 ++ ": " ++ pyStrip il.2)
      else none)

/-- All match lines, in walk order. -/
def searchMatches (fs : FS) (pattern : String) (dirPath : Path) (ext : String) :
    List String :=
  catLists ((searchScanned fs dirPath ext).map (fileMatchLines pattern))

/-- Model of `tools.search_code` (src/tools.py:154-205).  Note `path.exists()` admits a
regular file as search root; `rglob` over a non-directory yields nothing
(pathlib suppresses the scandir error on current Python).  The walk,
filtering and per-line matching are `searchScanned`/`searchMatches` above. -/
def search_code (fs : FS) (pattern : String) (dirPath : Path) (ext : String) : String :=
  match lookupPath fs dirPath with
  | none => "Error: Directory \x27" ++ renderPath dirPath ++ "\x27 does not exist"
  | some _ =>
    let ms := searchMatches fs pattern dirPath ext
    if ms.isEmpty then
      "No matches found for \x27" ++ pattern ++ "\x27 in " ++
        Nat.repr (searchScanned fs dirPath ext).length ++ " files"
    else if 50 < ms.length then
      joinLines (ms.take 50) ++ "\n... (" ++ Nat.repr (ms.length - 50) ++ " more matches)"
    else joinLines ms

/-! ### The Agent Loop (src/main.py) -/

/-- The `StepType` enum of src/main.py:24-28. -/
inductive StepType where
  | START
  | PLAN
  | TOOL
  | OUTPUT

/-- The `AgentResponse` pydantic model of src/main.py:52-56: every field
except the discriminator is optional and defaults to `None`. -/
structure AgentResponse where
  step : StepType
  content : Option String := none
  tool : Option String := none
  input : Option String := none

/-- A transcript message: `json.dumps` of the OBSERVE payload is modelled
as a structured constructor carrying the three serialized fields. -/
inductive MsgContent where
  | text (s : String)
  | observe (tool : Option String) (input : Option String) (output : String)

/-- One role-tagged message of the transcript. -/
structure Msg where
  role : String
  content : MsgContent

/-- One scripted behaviour of the LLM provider at one call: a parsed reply
together with the raw text appended to the transcript, or a raised
provider error. -/
inductive ScriptEvent where
  | reply (parsed : AgentResponse) (raw : String)
  | fail

/-- How a run of `run_agent` against a finite script ends.  `finished r`
is `return parsed_result.content` at an OUTPUT step; `llmError` is the
`"Error: Failed to get response from LLM"` return; `crashed` is the
uncaught `TypeError` from `len(tool_input)` when a TOOL reply carries no
input; `exhausted` means the loop would call the provider again. -/
inductive RunOutcome where
  | finished (result : Option String)
  | llmError
  | crashed
  | exhausted

/-- The mutable state of one `run_agent` invocation: the file system the
tools act on, `message_history`, and (as verification instrumentation) the
list of registry invocations performed. -/
structure RunState where
  fs : FS
  history : List Msg
  calls : List (Option String × String)

/-- The keys of `available_tools` (src/main.py:59-68). -/
def registryNames : List String :=
  ["read_file", "write_file", "create_directory", "list_files",
   "execute_command", "search_code"]

/-- Possible result of invoking one registry entry: a returned string, or a
Python exception escaping the entry (the argument-unpacking `TypeError` of
the `write_file`/`search_code` lambdas). -/
inductive ToolResult where
  | ok (s : String)
  | exn (msg : String)

/-- Model of `available_tools[name](input)` (src/main.py:59-68): `none` models the
`KeyError` of an unknown key.  `write_file` splits its argument at the
first `"|||"`; `search_code` splits at every `"|||"` and unpacks, raising
`TypeError` for more than three fields. -/
def callTool (oracle : ExecOracle) (fs : FS) (name input : String) :
    Option (FS × ToolResult) :=
  if name = "read_file" then some (fs, .ok (read_file fs (parsePath input)))
  else if name = "write_file" then
    match pySplit1 input "|||" with
    | [p, c] => some ((write_file fs (parsePath p) c).1, .ok (write_file fs (parsePath p) c).2)
    | _ => some (fs, .exn "write_file() missing 1 required positional argument: \x27content\x27")
  else if name = "create_directory" then
    some ((create_directory fs (parsePath input)).1, .ok (create_directory fs (parsePath input)).2)
  else if name = "list_files" then some (fs, .ok (list_files fs (parsePath input)))
  else if name = "execute_command" then some (fs, .ok (execute_command oracle input))
  else if name = "search_code" then
    match pySplit input "|||" with
    | [pat] => some (fs, .ok (search_code fs pat [] ""))
    | [pat, d] => some (fs, .ok (search_code fs pat (parsePath d) ""))
    | [pat, d, e] => some (fs, .ok (search_code fs pat (parsePath d) e))
    | parts =>
      some (fs, .exn ("search_code() takes from 1 to 3 positional arguments but " ++
        Nat.repr parts.length ++ " were given"))
  else none

/-- The TOOL dispatch of src/main.py:189-198: `available_tools[tool](input)`
inside `try/except Exception`, so a `KeyError` (`str(e)` is the quoted key,
or `None` for a `None` key) and any exception from the entry both become
the string `"Error executing tool: ..."`. -/
def dispatchTool (oracle : ExecOracle) (fs : FS) (name : Option String) (input : String) :
    FS × String :=
  match name with
  | none => (fs, "Error executing tool: None")
  | some n =>
    match callTool oracle fs n input with
    | some (fs2, .ok s) => (fs2, s)
    | some (fs2, .exn m) => (fs2, "Error executing tool: " ++ m)
    | none => (fs, "Error executing tool: \x27" ++ n ++ "\x27")

/-- The system prompt of src/main.py:70-143.  Its text constrains only the
external model, never the control flow, so the (long) literal is
abbreviated; no property below depends on its value. -/
def SYSTEM_PROMPT : String :=
  "You are a helpful coding assistant with access to file system and code execution tools."

/-- The seed messages of src/main.py:152-155. -/
def sysMsg : Msg := ⟨"system", .text SYSTEM_PROMPT⟩

/-- The seeded user query message. -/
def userMsg (q : String) : Msg := ⟨"user", .text q⟩

/-- The `while True` loop body of src/main.py:157-219, driven by a finite
script of provider behaviours.  Every reply first appends the raw text as
an assistant message; START and PLAN only print; a TOOL reply with a
`None` input crashes on `len(tool_input)` (src/main.py:183-187, outside
the `try`), otherwise dispatches and appends the user-role OBSERVE
message; OUTPUT returns its content. -/
def runAgent (oracle : ExecOracle) : RunState → List ScriptEvent → RunState × RunOutcome
  | st, [] => (st, .exhausted)
  | st, .fail :: _ => (st, .llmError)
  | st, .reply r raw :: rest =>
    match r.step with
    | .START => runAgent oracle
        { st with history := st.history ++ [⟨"assistant", .text raw⟩] } rest
    | .PLAN => runAgent oracle
        { st with history := st.history ++ [⟨"assistant", .text raw⟩] } rest
    | .OUTPUT =>
      ({ st with history := st.history ++ [⟨"assistant", .text raw⟩] }, .finished r.content)
    | .TOOL =>
      match r.input with
      | none =>
        ({ st with history := st.history ++ [⟨"assistant", .text raw⟩] }, .crashed)
      | some inp =>
        runAgent oracle
          { fs := (dispatchTool oracle st.fs r.tool inp).1,
            history := st.history ++
              [⟨"assistant", .text raw⟩,
               ⟨"user", .observe r.tool (some inp) (dispatchTool oracle st.fs r.tool inp).2⟩],
            calls := st.calls ++ [(r.tool, inp)] } rest

/-- Model of `run_agent` (src/main.py:146-219) against a scripted provider. -/
def run_agent (oracle : ExecOracle) (fs : FS) (q : String) (script : List ScriptEvent) :
    RunState × RunOutcome :=
  runAgent oracle ⟨fs, [sysMsg, userMsg q], []⟩ script

/-! ### Claims -/

/-- Claim C1: for the scripted sequence of model replies Start, Plan,
Tool(list_files, "."), Plan, Output("done"), `run_agent` invokes exactly one
tool (the recorded call list is the single `list_files` invocation), appends
exactly one Observation message — a user-role OBSERVE message placed
immediately after the Tool step assistant message — and returns "done". -/
theorem c1_scripted_run (oracle : ExecOracle) (fs : FS)
    (q s1 s2 s4 r1 r2 r3 r4 r5 : String) :
    run_agent oracle fs q
      [.reply ⟨.START, some s1, none, none⟩ r1,
       .reply ⟨.PLAN, some s2, none, none⟩ r2,
       .reply ⟨.TOOL, none, some "list_files", some "."⟩ r3,
       .reply ⟨.PLAN, some s4, none, none⟩ r4,
       .reply ⟨.OUTPUT, some "done", none, none⟩ r5] =
    (⟨fs,
      [sysMsg, userMsg q, ⟨"assistant", .text r1⟩, ⟨"assistant", .text r2⟩,
       ⟨"assistant", .text r3⟩,
       ⟨"user", .observe (some "list_files") (some ".") (list_files fs [])⟩,
       ⟨"assistant", .text r4⟩, ⟨"assistant", .text r5⟩],
      [(some "list_files", ".")]⟩, .finished (some "done")) := rfl

/-- Claim C5: every command containing (case-insensitively) one of the
denylist substrings is answered with the blocked-for-safety string, whatever
the shell oracle would do — the execution branch is never reached. -/
theorem c5_denylist_blocks (oracle : ExecOracle) (cmd : String)
    (h : dangerousKeywords.any (fun k => strContains (pyLower cmd) k) = true) :
    execute_command oracle cmd = "Error: Command blocked for safety reasons" := by
  unfold execute_command
  rw [if_pos h]

/-- Witness for C5 at the over-blocking example: "echo add" contains "dd". -/
theorem c5_witness :
    dangerousKeywords.any (fun k => strContains (pyLower "echo add") k) = true ∧
    execute_command (fun _ => .finished "" "" 0) "echo add" =
      "Error: Command blocked for safety reasons" :=
  ⟨by decide, c5_denylist_blocks (fun _ => .finished "" "" 0) "echo add" (by decide)⟩

/-- Claim C9: when the search root names an existing regular file,
`search_code` does not produce an error string: it scans zero files and
reports zero matches in zero files. -/
theorem c9_search_root_file (fs : FS) (dirPath : Path) (pattern ext c : String)
    (h : lookupPath fs dirPath = some (.file c)) :
    search_code fs pattern dirPath ext =
      "No matches found for \x27" ++ pattern ++ "\x27 in " ++ Nat.repr 0 ++ " files" := by
  simp only [search_code, searchMatches, searchScanned, h]
  rfl

/-- Witness for C9: searching below a path that is a regular file. -/
theorem c9_witness :
    search_code [("f", Node.file "x")] "p" ["f"] "" =
      "No matches found for \x27" ++ "p" ++ "\x27 in " ++ Nat.repr 0 ++ " files" :=
  c9_search_root_file [("f", Node.file "x")] ["f"] "p" "" "x" rfl

/-- Claim C8: a TOOL reply naming a tool outside the registry does not abort
the loop: the iteration appends the assistant message and an Observation
whose output field is the lookup-error string (the `KeyError` text), leaves
the file system and earlier transcript untouched, and the loop goes on to
process the rest of the script. -/
theorem c8_unknown_tool_continues (oracle : ExecOracle) (st : RunState)
    (n inp raw : String) (cnt : Option String) (rest : List ScriptEvent)
    (h : n ∉ registryNames) :
    runAgent oracle st (.reply ⟨.TOOL, cnt, some n, some inp⟩ raw :: rest) =
      runAgent oracle
        { st with
          history := st.history ++
            [⟨"assistant", .text raw⟩,
             ⟨"user", .observe (some n) (some inp)
               ("Error executing tool: \x27" ++ n ++ "\x27")⟩],
          calls := st.calls ++ [(some n, inp)] } rest := by
  simp only [registryNames, List.mem_cons, List.mem_singleton, not_or] at h
  obtain ⟨h1, h2, h3, h4, h5, h6⟩ := h
  simp [runAgent, dispatchTool, callTool, h1, h2, h3, h4, h5, h6]

/-- Witness for C8: the unknown tool name "frobnicate" yields the KeyError
observation and the run proceeds to exhaust the (empty) remaining script. -/
theorem c8_witness :
    ("frobnicate" ∉ registryNames) ∧
    runAgent (fun _ => ExecOutcome.finished "" "" 0) ⟨[], [sysMsg, userMsg "q"], []⟩
      [.reply ⟨.TOOL, none, some "frobnicate", some "z"⟩ "r1"] =
      (⟨[], [sysMsg, userMsg "q", ⟨"assistant", .text "r1"⟩,
        ⟨"user", .observe (some "frobnicate") (some "z")
          "Error executing tool: \x27frobnicate\x27"⟩],
        [(some "frobnicate", "z")]⟩, .exhausted) := by
  refine ⟨by decide, ?_⟩
  rw [c8_unknown_tool_continues (fun _ => ExecOutcome.finished "" "" 0)
    ⟨[], [sysMsg, userMsg "q"], []⟩ "frobnicate" "z" "r1" none [] (by decide)]
  rfl

/-- The loop-level conversion always yields an "Error ..."-marked string. -/
theorem errorMarkerPrefix (m : String) :
    strStartsWith ("Error executing tool: " ++ m) "Error" = true := by
  obtain ⟨d⟩ := m
  rfl

/-- Claim C4: for every tool name in the registry and every input string
(including `write_file` inputs without the `"|||"` delimiter and
`search_code` inputs with more than three fields), the registry lookup
succeeds, and at the dispatch boundary of src/main.py:189-198 the caller
always receives a string: an exception escaping the entry is converted to
the `"Error executing tool: ..."` string (which carries the error marker),
and a normal result is passed through verbatim. -/
theorem c4_registry_total (oracle : ExecOracle) (fs : FS) (name input : String)
    (h : name ∈ registryNames) :
    (callTool oracle fs name input).isSome = true ∧
    (∀ fs2 m, callTool oracle fs name input = some (fs2, .exn m) →
      dispatchTool oracle fs (some name) input = (fs2, "Error executing tool: " ++ m) ∧
      strStartsWith ("Error executing tool: " ++ m) "Error" = true) ∧
    (∀ fs2 s, callTool oracle fs name input = some (fs2, .ok s) →
      dispatchTool oracle fs (some name) input = (fs2, s)) := by
  refine ⟨?_,
    fun fs2 m hm => ⟨by simp [dispatchTool, hm], errorMarkerPrefix m⟩,
    fun fs2 s hs => by simp [dispatchTool, hs]⟩
  simp only [registryNames, List.mem_cons, List.not_mem_nil, or_false] at h
  rcases h with rfl | rfl | rfl | rfl | rfl | rfl <;>
    simp [callTool] <;> (try split) <;> rfl

/-- Witness for C4: the `write_file` entry with a delimiter-free input
raises the unpacking TypeError, which the dispatch converts to a string. -/
theorem c4_witness :
    (callTool (fun _ => ExecOutcome.finished "" "" 0) [] "write_file" "abc").isSome = true ∧
    dispatchTool (fun _ => ExecOutcome.finished "" "" 0) [] (some "write_file") "abc" =
      ([], "Error executing tool: " ++
        "write_file() missing 1 required positional argument: \x27content\x27") := by
  have H := c4_registry_total (fun _ => ExecOutcome.finished "" "" 0) [] "write_file" "abc"
    (by decide)
  exact ⟨H.1, (H.2.1 []
    "write_file() missing 1 required positional argument: \x27content\x27" rfl).1⟩

/-- The fresh chain of directories (ending in the written file) that
`write_file` creates below a missing ancestor. -/
def mkChain : Path → String → List (String × Node)
  | [], _ => []
  | [n], c => [(n, .file c)]
  | n :: m :: rest, c => [(n, .dir (mkChain (m :: rest) c))]

/-- Writing below an empty directory creates exactly the fresh chain. -/
theorem writeAt_nil_eq (c : String) :
    ∀ p : Path, p ≠ [] → writeAt [] p c = some (mkChain p c)
  | [], h => absurd rfl h
  | [_], _ => rfl
  | n :: m :: rest, _ => by
    simp [writeAt, findEntry, writeAt_nil_eq c (m :: rest) (by simp), mkChain, setEntry]

/-- The written file is found back at the bottom of the fresh chain. -/
theorem lookup_mkChain (c : String) :
    ∀ p : Path, p ≠ [] → lookupPath (mkChain p c) p = some (.file c)
  | [], h => absurd rfl h
  | [n], _ => by simp [mkChain, lookupPath, findEntry]
  | n :: m :: rest, _ => by
    simp [mkChain, lookupPath, findEntry, lookup_mkChain c (m :: rest) (by simp)]

/-- Looking up the name just set finds the node just set. -/
theorem findEntry_setEntry_self (n : String) (nd : Node) :
    ∀ es : List (String × Node), findEntry (setEntry es n nd) n = some nd
  | [] => by simp [setEntry, findEntry]
  | (m, x) :: rest => by
    by_cases hm : m = n
    · simp [setEntry, hm, findEntry]
    · simp [setEntry, hm, findEntry, findEntry_setEntry_self n nd rest]

/-- Claim C2: for a target path none of whose parent directories exists yet
(the parent path is non-trivial and no non-empty prefix of it resolves),
`write_file` succeeds reporting the character count, and `read_file` then
returns exactly the content, with the `"(Empty file)"` marker exactly for
zero-length content. -/
theorem c2_round_trip (fs : FS) (p : Path) (c : String)
    (h1 : p.dropLast ≠ [])
    (h2 : ∀ q ∈ p.dropLast.inits, q = [] ∨ (lookupPath fs q).isNone = true) :
    (write_file fs p c).2 =
      "Successfully wrote " ++ Nat.repr c.length ++ " characters to \x27" ++
        renderPath p ++ "\x27" ∧
    read_file (write_file fs p c).1 p = (if c = "" then "(Empty file)" else c) := by
  rcases p with _ | ⟨n, rest⟩
  · simp at h1
  · rcases rest with _ | ⟨m, rest⟩
    · simp at h1
    · have hmem : [n] ∈ (n :: m :: rest).dropLast.inits := by
        rw [List.mem_inits, List.dropLast_cons₂]
        exact ⟨(m :: rest).dropLast, rfl⟩
      have hn : (lookupPath fs [n]).isNone = true := by
        rcases h2 [n] hmem with hq | hq
        · exact absurd hq (by simp)
        · exact hq
      have hfind : findEntry fs n = none := by
        rw [Option.isNone_iff_eq_none] at hn
        simpa [lookupPath] using hn
      have hwrite : writeAt fs (n :: m :: rest) c =
          some (setEntry fs n (.dir (mkChain (m :: rest) c))) := by
        simp [writeAt, hfind, writeAt_nil_eq c (m :: rest) (by simp)]
      refine ⟨by simp [write_file, hwrite], ?_⟩
      simp only [write_file, hwrite, read_file, lookupPath,
        findEntry_setEntry_self, lookup_mkChain c (m :: rest) (by simp)]

/-- Witness for C2: writing "hi" at the fresh path a/b and reading it back. -/
theorem c2_witness :
    (write_file [] ["a", "b"] "hi").2 =
      "Successfully wrote " ++ Nat.repr ("hi" : String).length ++ " characters to \x27" ++
        renderPath ["a", "b"] ++ "\x27" ∧
    read_file (write_file [] ["a", "b"] "hi").1 ["a", "b"] =
      (if ("hi" : String) = "" then "(Empty file)" else "hi") :=
  c2_round_trip [] ["a", "b"] "hi" (by decide) (by decide)

/-- Code-point comparison is total. -/
theorem leChars_total : ∀ s t : List Char, leChars s t = true ∨ leChars t s = true
  | [], _ => .inl rfl
  | _ :: _, [] => .inr rfl
  | a :: s, b :: t => by
    rcases Nat.lt_trichotomy a.toNat b.toNat with h | h | h
    · left; simp [leChars, h]
    · have h1 : ¬a.toNat < b.toNat := by omega
      have h2 : ¬b.toNat < a.toNat := by omega
      simpa [leChars, h1, h2] using leChars_total s t
    · right; simp [leChars, h]

/-- Code-point comparison is transitive. -/
theorem leChars_trans : ∀ s t u : List Char,
    leChars s t = true → leChars t u = true → leChars s u = true
  | [], _, _ => fun _ _ => rfl
  | _ :: _, [], _ => fun h _ => by simp [leChars] at h
  | _ :: _, _ :: _, [] => fun _ h => by simp [leChars] at h
  | a :: s, b :: t, c :: u => fun h1 h2 => by
    simp only [leChars] at h1 h2 ⊢
    rcases Nat.lt_trichotomy a.toNat b.toNat with hab | hab | hab
    · rcases Nat.lt_trichotomy b.toNat c.toNat with hbc | hbc | hbc
      · simp [show a.toNat < c.toNat by omega]
      · simp [show a.toNat < c.toNat by omega]
      · simp [show ¬b.toNat < c.toNat by omega, show c.toNat < b.toNat from hbc] at h2
    · rcases Nat.lt_trichotomy b.toNat c.toNat with hbc | hbc | hbc
      · simp [show a.toNat < c.toNat by omega]
      · have e1 : ¬a.toNat < b.toNat := by omega
        have e2 : ¬b.toNat < a.toNat := by omega
        have e3 : ¬b.toNat < c.toNat := by omega
        have e4 : ¬c.toNat < b.toNat := by omega
        have e5 : ¬a.toNat < c.toNat := by omega
        have e6 : ¬c.toNat < a.toNat := by omega
        simp only [e1, e2, if_false, if_neg] at h1
        simp only [e3, e4, if_false, if_neg] at h2
        simp only [e5, e6, if_false, if_neg]
        exact leChars_trans s t u (by simpa using h1) (by simpa using h2)
      · simp [show ¬b.toNat < c.toNat by omega, show c.toNat < b.toNat from hbc] at h2
    · simp [show ¬a.toNat < b.toNat by omega, show b.toNat < a.toNat from hab] at h1

/-- Claim C7: `list_files` errors on a missing path and on a regular file;
on a directory it prints, one line per immediate child, the children in
lexicographic name order (a sorted permutation of the directory listing),
each formatted by kind, and prints the distinct "is empty" message — not
the empty string — for an empty directory. -/
theorem c7_list_files (fs : FS) (p : Path) :
    (lookupPath fs p = none →
      list_files fs p = "Error: Directory \x27" ++ renderPath p ++ "\x27 does not exist") ∧
    (∀ c, lookupPath fs p = some (.file c) →
      list_files fs p = "Error: \x27" ++ renderPath p ++ "\x27 is not a directory") ∧
    (∀ cs, lookupPath fs p = some (.dir cs) →
      (cs = [] → list_files fs p = "Directory \x27" ++ renderPath p ++ "\x27 is empty") ∧
      (cs ≠ [] →
        List.Perm cs (List.insertionSort entryLe cs) ∧
        List.Pairwise entryLe (List.insertionSort entryLe cs) ∧
        list_files fs p = joinLines ((List.insertionSort entryLe cs).map fmtEntry))) := by
  haveI : IsTotal (String × Node) entryLe :=
    ⟨fun a b => leChars_total a.1.data b.1.data⟩
  haveI : IsTrans (String × Node) entryLe :=
    ⟨fun a b c h1 h2 => leChars_trans a.1.data b.1.data c.1.data h1 h2⟩
  refine ⟨fun h => by simp [list_files, h], fun c h => by simp [list_files, h],
    fun cs h => ⟨fun hnil => by simp [list_files, h, hnil], fun hne => ?_⟩⟩
  have hperm : List.Perm cs (List.insertionSort entryLe cs) :=
    (List.perm_insertionSort entryLe cs).symm
  refine ⟨hperm, List.sorted_insertionSort entryLe cs, ?_⟩
  rcases hcs : List.insertionSort entryLe cs with _ | ⟨a, t⟩
  · rw [hcs] at hperm
    exact absurd hperm.eq_nil hne
  · simp [list_files, h, hcs]

/-- Witness for C7: a directory with a file child and a directory child is
printed sorted by name with the two markers. -/
theorem c7_witness :
    List.Perm [("b", Node.file "xy"), ("a", Node.dir [])]
      (List.insertionSort entryLe [("b", Node.file "xy"), ("a", Node.dir [])]) ∧
    List.Pairwise entryLe (List.insertionSort entryLe [("b", Node.file "xy"), ("a", Node.dir [])]) ∧
    list_files [("d", Node.dir [("b", Node.file "xy"), ("a", Node.dir [])])] ["d"] =
      joinLines ((List.insertionSort entryLe
        [("b", Node.file "xy"), ("a", Node.dir [])]).map fmtEntry) :=
  ((c7_list_files [("d", Node.dir [("b", Node.file "xy"), ("a", Node.dir [])])] ["d"]).2.2
    [("b", Node.file "xy"), ("a", Node.dir [])] rfl).2 (by simp)

/-- Claim C6: when the search root exists, `search_code` with more than 50
match lines prints exactly the first 50 of them followed by the trailer
counting the remaining `N - 50`; with zero match lines it reports the
number of files actually scanned. -/
theorem c6_search_report (fs : FS) (pattern : String) (dirPath : Path) (ext : String)
    (h : (lookupPath fs dirPath).isSome = true) :
    (50 < (searchMatches fs pattern dirPath ext).length →
      search_code fs pattern dirPath ext =
        joinLines ((searchMatches fs pattern dirPath ext).take 50) ++ "\n... (" ++
          Nat.repr ((searchMatches fs pattern dirPath ext).length - 50) ++
          " more matches)") ∧
    (searchMatches fs pattern dirPath ext = [] →
      search_code fs pattern dirPath ext =
        "No matches found for \x27" ++ pattern ++ "\x27 in " ++
          Nat.repr (searchScanned fs dirPath ext).length ++ " files") := by
  rw [Option.isSome_iff_exists] at h
  obtain ⟨nd, hnd⟩ := h
  constructor
  · intro hlen
    rcases hms : searchMatches fs pattern dirPath ext with _ | ⟨a, t⟩
    · rw [hms] at hlen; simp at hlen
    · rw [hms] at hlen
      simp [search_code, hnd, hms, hlen]
      intro hle
      exfalso
      simp only [List.length_cons] at hlen
      omega
  · intro hnil
    simp [search_code, hnd, hnil]

/-- Witness for C6: one file of 51 matching lines trips the truncation. -/
theorem c6_witness :
    search_code [("f.txt", Node.file (joinLines (List.replicate 51 "x")))] "x" [] "" =
      joinLines ((searchMatches [("f.txt", Node.file (joinLines (List.replicate 51 "x")))]
          "x" [] "").take 50) ++ "\n... (" ++
        Nat.repr ((searchMatches [("f.txt", Node.file (joinLines (List.replicate 51 "x")))]
          "x" [] "").length - 50) ++ " more matches)" :=
  (c6_search_report [("f.txt", Node.file (joinLines (List.replicate 51 "x")))]
    "x" [] "" rfl).1 (by decide)

/-- Is the node a regular file? -/
def isFileNode : Node → Bool
  | .file _ => true
  | .dir _ => false

mutual

/-- Strip hidden-named regular files inside one node. -/
def removeHiddenNode : Node → Node
  | .file c => .file c
  | .dir cs => .dir (removeHiddenEntries cs)

/-- Strip every regular file whose own name starts with `"."` — exactly the
entries the `search_code` walk refuses to open — keeping every directory
(hidden or not) and its visible descendants. -/
def removeHiddenEntries : List (String × Node) → List (String × Node)
  | [] => []
  | (n, nd) :: rest =>
    if strStartsWith n "." && isFileNode nd then removeHiddenEntries rest
    else (n, removeHiddenNode nd) :: removeHiddenEntries rest

end

/-- The walk over the stripped tree is the visible-name filter of the walk. -/
theorem filesOf_removeHidden : ∀ (p : Path) (es : List (String × Node)),
    filesOfList p (removeHiddenEntries es) =
      (filesOfList p es).filter (fun f => !strStartsWith f.name ".")
  | _, [] => rfl
  | p, (n, .file c) :: rest => by
    by_cases h : strStartsWith n "." = true
    · simp [removeHiddenEntries, isFileNode, h, filesOfList, filesOfNode,
        filesOf_removeHidden p rest]
    · have h2 : strStartsWith n "." = false := by
        cases hc : strStartsWith n "."
        · rfl
        · exact absurd hc h
      simp [removeHiddenEntries, isFileNode, h2, filesOfList, filesOfNode,
        removeHiddenNode, filesOf_removeHidden p rest]
  | p, (n, .dir cs) :: rest => by
    simp [removeHiddenEntries, isFileNode, filesOfList, filesOfNode, removeHiddenNode,
      Bool.and_false, filesOf_removeHidden (p ++ [n]) cs, filesOf_removeHidden p rest,
      List.filter_append]
termination_by _ es => sizeOf es

/-- Claim C3, amended: `search_code` skips exactly the files whose own
(final-component) name starts with the hidden marker — deleting them from
the tree changes neither the matches nor the scanned-file count, so the
whole report is unchanged.  Files lying inside hidden directories are NOT
skipped (see the counterexample): only the file name itself is tested. -/
theorem c3_hidden_files_amended (fs : FS) (pattern ext : String) :
    search_code (removeHiddenEntries fs) pattern [] ext = search_code fs pattern [] ext := by
  have hscan : searchScanned (removeHiddenEntries fs) [] ext = searchScanned fs [] ext := by
    simp only [searchScanned, lookupPath]
    rw [filesOf_removeHidden, List.filter_filter]
    apply List.filter_congr
    intro f _
    cases hsw : strStartsWith f.name "." <;> simp [hsw]
  simp only [search_code, searchMatches, lookupPath, hscan]

/-- Counterexample to C3 as stated: a matching file below the hidden
directory `.h` is scanned (the count is 1, not 0) and its line is reported
as a match — the hidden-name test applies only to the file name itself,
not to directories on its path. -/
theorem c3_counterexample :
    search_code [(".h", Node.dir [("a.txt", Node.file "needle")])] "needle" [] "" =
      ".h/a.txt:1: needle" ∧
    (searchScanned [(".h", Node.dir [("a.txt", Node.file "needle")])] [] "").length = 1 :=
  ⟨rfl, rfl⟩

/-- The transcript delta of one consumed model reply: always the one
assistant message carrying the raw reply, followed by one user-role OBSERVE
message exactly when the parsed step is TOOL with a present input field. -/
def iterBlock (r : AgentResponse) (raw : String) (b : List Msg) : Prop :=
  match r.step, r.input with
  | .TOOL, some inp =>
    ∃ s, b = [⟨"assistant", .text raw⟩, ⟨"user", .observe r.tool (some inp) s⟩]
  | _, _ => b = [⟨"assistant", .text raw⟩]

/-- The loop only ever appends to the transcript, one block per consumed
reply. -/
theorem runAgent_blocks (oracle : ExecOracle) :
    ∀ (script : List ScriptEvent) (st : RunState),
      ∃ (consumed rest : List ScriptEvent) (blocks : List (List Msg)),
        script = consumed ++ rest ∧
        (runAgent oracle st script).1.history = st.history ++ catLists blocks ∧
        List.Forall₂
          (fun ev b => ∃ r raw, ev = ScriptEvent.reply r raw ∧ iterBlock r raw b)
          consumed blocks
  | [], st => ⟨[], [], [], rfl, by simp [runAgent, catLists], .nil⟩
  | .fail :: t, st => ⟨[], .fail :: t, [], rfl, by simp [runAgent, catLists], .nil⟩
  | .reply ⟨.START, cnt, tool, inp⟩ raw :: t, st => by
    obtain ⟨c, rest, blocks, h1, h2, h3⟩ := runAgent_blocks oracle t
      { st with history := st.history ++ [⟨"assistant", .text raw⟩] }
    exact ⟨.reply ⟨.START, cnt, tool, inp⟩ raw :: c, rest,
      [⟨"assistant", .text raw⟩] :: blocks, by rw [h1]; rfl,
      by simpa [runAgent, catLists, List.append_assoc] using h2,
      .cons ⟨_, raw, rfl, rfl⟩ h3⟩
  | .reply ⟨.PLAN, cnt, tool, inp⟩ raw :: t, st => by
    obtain ⟨c, rest, blocks, h1, h2, h3⟩ := runAgent_blocks oracle t
      { st with history := st.history ++ [⟨"assistant", .text raw⟩] }
    exact ⟨.reply ⟨.PLAN, cnt, tool, inp⟩ raw :: c, rest,
      [⟨"assistant", .text raw⟩] :: blocks, by rw [h1]; rfl,
      by simpa [runAgent, catLists, List.append_assoc] using h2,
      .cons ⟨_, raw, rfl, rfl⟩ h3⟩
  | .reply ⟨.OUTPUT, cnt, tool, inp⟩ raw :: t, st =>
    ⟨[.reply ⟨.OUTPUT, cnt, tool, inp⟩ raw], t, [[⟨"assistant", .text raw⟩]], rfl,
      by simp [runAgent, catLists], .cons ⟨_, raw, rfl, rfl⟩ .nil⟩
  | .reply ⟨.TOOL, cnt, tool, none⟩ raw :: t, st =>
    ⟨[.reply ⟨.TOOL, cnt, tool, none⟩ raw], t, [[⟨"assistant", .text raw⟩]], rfl,
      by simp [runAgent, catLists], .cons ⟨_, raw, rfl, rfl⟩ .nil⟩
  | .reply ⟨.TOOL, cnt, tool, some inp⟩ raw :: t, st => by
    obtain ⟨c, rest, blocks, h1, h2, h3⟩ := runAgent_blocks oracle t
      { fs := (dispatchTool oracle st.fs tool inp).1,
        history := st.history ++
          [⟨"assistant", .text raw⟩,
           ⟨"user", .observe tool (some inp) (dispatchTool oracle st.fs tool inp).2⟩],
        calls := st.calls ++ [(tool, inp)] }
    exact ⟨.reply ⟨.TOOL, cnt, tool, some inp⟩ raw :: c, rest,
      [⟨"assistant", .text raw⟩,
       ⟨"user", .observe tool (some inp) (dispatchTool oracle st.fs tool inp).2⟩] :: blocks,
      by rw [h1]; rfl,
      by simpa [runAgent, catLists, List.append_assoc] using h2,
      .cons ⟨_, raw, rfl, ⟨(dispatchTool oracle st.fs tool inp).2, rfl⟩⟩ h3⟩

/-- Claim C10, amended: the transcript is append-only, always starts with
the unmodified system prompt and user query, and each consumed reply
appends exactly one assistant message followed by exactly one user-role
OBSERVE message when the parsed step is TOOL with a present input field —
a TOOL reply whose input field is absent appends only the assistant message
and aborts the run on the uncaught `len(None)` TypeError (see the
counterexample), and no other mutation occurs. -/
theorem c10_transcript_amended (oracle : ExecOracle) (fs : FS) (q : String)
    (script : List ScriptEvent) :
    ∃ (consumed rest : List ScriptEvent) (blocks : List (List Msg)),
      script = consumed ++ rest ∧
      (run_agent oracle fs q script).1.history = sysMsg :: userMsg q :: catLists blocks ∧
      List.Forall₂
        (fun ev b => ∃ r raw, ev = ScriptEvent.reply r raw ∧ iterBlock r raw b)
        consumed blocks := by
  obtain ⟨c, rest, blocks, h1, h2, h3⟩ :=
    runAgent_blocks oracle script ⟨fs, [sysMsg, userMsg q], []⟩
  exact ⟨c, rest, blocks, h1, h2, h3⟩

/-- Counterexample to C10 as stated: a TOOL reply with an absent input
field crashes the iteration after the assistant append — the parsed step is
TOOL, yet zero OBSERVE messages are appended to the transcript. -/
theorem c10_counterexample :
    run_agent (fun _ => ExecOutcome.finished "" "" 0) [] "q"
      [.reply ⟨.TOOL, none, some "list_files", none⟩ "r1"] =
      (⟨[], [sysMsg, userMsg "q", ⟨"assistant", .text "r1"⟩], []⟩, .crashed) ∧
    ((run_agent (fun _ => ExecOutcome.finished "" "" 0) [] "q"
        [.reply ⟨.TOOL, none, some "list_files", none⟩ "r1"]).1.history.filter
      (fun m => match m.content with | .observe _ _ _ => true | _ => false)).length = 0 :=
  ⟨rfl, rfl⟩

end CodingAgent
